import Mathlib

/-!
Verification development for the `weather` command-line client
(concurrent dispatcher version: `main`, `handleInput`, `handleCommand`,
`fetchWeather`, `fetchFavourites`, `addFavourite`, `removeFavourite`,
`getWeatherByCity`).

The Go program is shallowly embedded as follows.

* The HTTP/JSON layer (`fetchData`, `json.Unmarshal`) is the external
  provider boundary; it is modelled by an environment `Env` of oracles
  giving, for each request, either the decoded response or a transport
  failure, exactly the two cases the source distinguishes.
* `float32` coordinates and temperatures are only ever copied around by
  the program (no arithmetic is performed on them), so they are modelled
  by `Int` scalars.
* Goroutines and the three unbuffered channels (`cmdChan`, `weatherChan`,
  `errorChan`) are modelled by a labelled small-step transition relation
  `Step` on a system state `Sys`: a send and its matching receive are a
  single rendezvous step, which is the semantics of an unbuffered Go
  channel.  Goroutine-local code between two channel operations runs as
  one atomic step.
* `config.Language` / `config.Units` are loaded once and never mutated by
  the dispatch loop, so they are absorbed into the `Env` oracles;
  `saveConfig ∘ json.Marshal` is modelled by the `save` oracle on the
  favourites list (marshalling of this struct cannot fail in Go, file
  writing can).
-/

namespace Weather

/-- Geographic coordinates (`Coordinates` struct); `float32` fields are
modelled as opaque `Int` scalars, the program never computes with them. -/
structure Coordinates where
  lat : Int
  lon : Int
deriving DecidableEq

/-- A favourites entry (`Location` struct). -/
structure Location where
  city : String
  country : String
  coordinates : Coordinates
deriving DecidableEq

/-- One element of the geocoding response array (`GeoResponse` struct). -/
structure GeoResponse where
  name : String
  lat : Int
  lon : Int
  country : String
deriving DecidableEq

/-- One element of the `weather` array of the provider response. -/
structure WeatherDetails where
  description : String
deriving DecidableEq

/-- The `main` block of the provider response (`Temperatures` struct). -/
structure Temperatures where
  temp : Int
  feelsLike : Int
deriving DecidableEq

/-- The `sys` block of the provider response (`LocationDetails` struct). -/
structure LocationDetails where
  country : String
deriving DecidableEq

/-- The decoded weather-provider response (`WeatherResponse` struct). -/
structure WeatherResponse where
  weatherDetails : List WeatherDetails
  temperatures : Temperatures
  city : String
  locationDetails : LocationDetails
deriving DecidableEq

/-- The program's success value for one fetch (`WeatherResult` struct). -/
structure WeatherResult where
  temperature : Int
  feelsLike : Int
  description : String
  country : String
  city : String
deriving DecidableEq

/-- Result of one external call: decoded value or transport failure.
This is the boundary of `fetchData` + `json.Unmarshal`. -/
inductive NetResult (α : Type) where
  | ok (val : α)
  | fail (msg : String)
deriving DecidableEq

/-- The error values the program produces, one constructor per `errors.New`
/ `fmt.Errorf` site reachable from the dispatch loop. -/
inductive Err where
  /-- a `fetchData` failure string, passed through unchanged -/
  | fetchFailed (msg : String)
  /-- `errors.New("Location not found")` in `fetchLocationData` -/
  | locationNotFound
  /-- `errors.New("Not found")` in `fetchWeather` -/
  | weatherNotFound
  /-- `fmt.Errorf("%s already exists in favourites", city)` -/
  | duplicate (city : String)
  /-- `fmt.Errorf("City %s does not exist in favourites", city)` -/
  | notFound (city : String)
  /-- `fmt.Errorf("Failed to save config file: %s", err)` -/
  | saveFailed (msg : String)
  /-- `errors.New("Missing city parameter")` in `handleCommand` -/
  | missingCity
deriving DecidableEq

/-- Result of one of the program's own fallible operations. -/
inductive OpResult (α : Type) where
  | ok (val : α)
  | err (e : Err)
deriving DecidableEq

/-- The external environment: provider and file-system oracles.
`geo city country` is the decoded body of the geocoding request for
`q=city,country`; `weather c` the decoded body of the weather request for
coordinates `c` (the fixed `config.Language` is absorbed into the oracle);
`save favs` is `saveConfig` applied to the marshalled config whose
favourites list is `favs`. -/
structure Env where
  geo : String → String → NetResult (List GeoResponse)
  weather : Coordinates → NetResult WeatherResponse
  save : List Location → NetResult Unit

/-- `unicode.IsSpace` restricted to Latin-1, the white space recognised by
Go's `strings.Fields`. -/
def goIsSpace (c : Char) : Bool :=
  c = ' ' || c = '\t' || c = '\n' || c = (Char.ofNat 0x0b) || c = (Char.ofNat 0x0c)
    || c = '\r' || c = (Char.ofNat 0x85) || c = (Char.ofNat 0xa0)

/-- Split a character sequence at every character satisfying `p`,
keeping the (possibly empty) pieces between separators. -/
def splitChars (p : Char → Bool) : List Char → List (List Char)
  | [] => [[]]
  | c :: cs =>
    if p c then [] :: splitChars p cs
    else
      match splitChars p cs with
      | [] => [[c]]
      | t :: ts => (c :: t) :: ts

/-- `strings.Fields`: split around runs of white space, keeping only the
non-empty tokens. -/
def goFields (s : String) : List String :=
  ((splitChars goIsSpace s.data).map (fun cs => (⟨cs⟩ : String))).filter (fun t => t ≠ "")

/-- `strings.ToLower` on the ASCII range (the only range the proofs
exercise; Go lowers the full Unicode table). -/
def goToLower (s : String) : String := ⟨s.data.map Char.toLower⟩

/-- `fetchLocationData(city, country)`: one geocoding call; a transport
failure propagates, an empty result array is `Location not found`, and
otherwise the first array element is returned. -/
def fetchLocationData (env : Env) (city country : String) : OpResult GeoResponse :=
  match env.geo city country with
  | .fail e => .err (.fetchFailed e)
  | .ok [] => .err .locationNotFound
  | .ok (g :: _) => .ok g

/-- A message a fetch task delivers: either a `WeatherResult` on
`weatherChan` or an error on `errorChan`. -/
inductive FetchMsg where
  | weather (r : WeatherResult)
  | err (e : Err)
deriving DecidableEq

/-- The single message the body of `fetchWeather(coordinates, weatherChan,
errorChan)` delivers for coordinates `c`: the fetch/read error, or `Not
found` when the `weather` array is empty, or the assembled result. -/
def fetchWeatherMsg (env : Env) (c : Coordinates) : FetchMsg :=
  match env.weather c with
  | .fail e => .err (.fetchFailed e)
  | .ok resp =>
    match resp.weatherDetails with
    | [] => .err .weatherNotFound
    | d :: _ =>
      .weather ⟨resp.temperatures.temp, resp.temperatures.feelsLike,
        d.description, resp.locationDetails.country, resp.city⟩

/-- The list of channel sends one execution of `fetchWeather` performs,
in order: each of the three branches of the body ends in exactly one
send (`errorChan <- err`, `errorChan <- errors.New("Not found")`, or
`weatherChan <- res`) followed by `return`. -/
def fetchWeatherSends (env : Env) (c : Coordinates) : List FetchMsg :=
  match env.weather c with
  | .fail e => [.err (.fetchFailed e)]
  | .ok resp =>
    match resp.weatherDetails with
    | [] => [.err .weatherNotFound]
    | d :: _ =>
      [.weather ⟨resp.temperatures.temp, resp.temperatures.feelsLike,
        d.description, resp.locationDetails.country, resp.city⟩]

/-- The index search of `removeFavourite`: scan from the front, stop at
the first entry whose lower-cased city equals `city`, `none` when the
loop falls through (`index == -1`). -/
def findIndex (city : String) : List Location → Option Nat
  | [] => none
  | l :: ls =>
    if goToLower l.city == city then some 0
    else (findIndex city ls).map (· + 1)

/-- Result of `addFavourite`: the value of `config.Favourites` after the
call, and either the `Location` whose confirmation was printed or the
returned error. -/
structure AddResult where
  favourites : List Location
  result : OpResult Location
deriving DecidableEq

/-- `addFavourite(city, country)`: reject when some stored entry's city
equals the argument case-insensitively; otherwise resolve, append the
entry built from the *resolved* name/country/coordinates, assign it to
`config.Favourites`, then save; a save failure is returned *after* the
in-memory assignment has happened.  (Marshalling of this struct cannot
fail in Go, so that branch is not modelled.)  On success the confirmation
`New location <Name>, <Country> added to favourites` is printed, carried
here as the `.ok` payload. -/
def addFavourite (env : Env) (favs : List Location) (city country : String) : AddResult :=
  if favs.any (fun l => goToLower l.city == goToLower city) then
    ⟨favs, .err (.duplicate city)⟩
  else
    match fetchLocationData env city country with
    | .err e => ⟨favs, .err e⟩
    | .ok g =>
      let loc : Location := ⟨g.name, g.country, ⟨g.lat, g.lon⟩⟩
      let newFavs := favs ++ [loc]
      match env.save newFavs with
      | .fail e => ⟨newFavs, .err (.saveFailed e)⟩
      | .ok _ => ⟨newFavs, .ok loc⟩

/-- `removeFavourite(city)`: find the first entry whose lower-cased
stored city equals the argument (the argument itself is *not* lowered
here; `handleCommand` lowers it before the call); absent means the
`does not exist` error with the list untouched; present means the entry
is sliced out (`append(favs[:i], favs[i+1:]...)`), assigned, then saved.
The save failure is returned after the in-memory assignment. -/
def removeFavourite (env : Env) (favs : List Location) (city : String) :
    List Location × OpResult String :=
  match findIndex city favs with
  | none => ⟨favs, .err (.notFound city)⟩
  | some i =>
    let newFavs := favs.take i ++ favs.drop (i + 1)
    match env.save newFavs with
    | .fail e => ⟨newFavs, .err (.saveFailed e)⟩
    | .ok _ => ⟨newFavs, .ok city⟩

/-- What a handler goroutine does after its pending `errorChan` send is
received: `handleCommand` either `return`s (`done`) or falls through to
`printResult(<-weatherChan)` (`thenAwaitWeather`, the `w` case whose
`getWeatherByCity` failed). -/
inductive HCont where
  | done
  | thenAwaitWeather
deriving DecidableEq

/-- The state of one `handleCommand` goroutine, between channel
operations: just spawned with its token sequence; blocked sending an
error on `errorChan`; or blocked at `printResult(<-weatherChan)`. -/
inductive HState where
  | start (input : List String)
  | offerErr (e : Err) (k : HCont)
  | awaitWeather
deriving DecidableEq

/-- A live goroutine other than the reader and the dispatcher: a
`fetchWeather` task carrying the coordinates captured (by value) at its
`go` statement, or a `handleCommand` goroutine. -/
inductive GTask where
  | fetch (c : Coordinates)
  | handler (h : HState)
deriving DecidableEq

/-- A user-visible print, tagged (as model bookkeeping only) with whether
an error print originated from a fetch task's channel message or from a
handler's channel message. -/
inductive ErrSrc where
  | fromFetch
  | fromHandler
deriving DecidableEq

/-- The semantically meaningful prints of the dispatch loop and its
goroutines (prompt/blank-line/tabwriter formatting is not modelled). -/
inductive OutEvent where
  /-- `printResult` of a `WeatherResult` -/
  | weatherPrinted (r : WeatherResult)
  /-- `fmt.Println(err)` in `main`'s select -/
  | errorPrinted (src : ErrSrc) (e : Err)
  /-- `No favourites added` -/
  | noFavourites
  /-- the body of `listFavourites` -/
  | listed (favs : List Location)
  /-- `New location <name>, <country> added to favourites` -/
  | addedFav (name country : String)
  /-- `City <city> successfully removed from favourites` -/
  | removedFav (city : String)
  /-- `printCommands` -/
  | commandsPrinted
  /-- `Unknown command` -/
  | unknownCommand
deriving DecidableEq

/-- The effect of running `handleCommand(input, ...)` from its entry up
to its first channel operation (or to its return when it performs none):
the new `config.Favourites`, the prints made, the coordinates of the
`fetchWeather` goroutines spawned, and the continuation state (`none`
when the goroutine returned). -/
structure HandlerEffect where
  favourites : List Location
  prints : List OutEvent
  spawned : List Coordinates
  next : Option HState
deriving DecidableEq

/-- `handleCommand(input, weatherChan, errorChan)` up to its first
channel operation, translated case by case from the `switch`.  The `w`
case resolves inline via `getWeatherByCity`: on resolution failure the
goroutine is left offering the error and — because `getWeatherByCity`
merely `return`s — still falls through to `printResult(<-weatherChan)`;
on success it spawns one `fetchWeather` task and blocks on
`<-weatherChan`. -/
def handleCommandStep (env : Env) (favs : List Location) (input : List String) :
    HandlerEffect :=
  match input with
  | [] => ⟨favs, [], [], none⟩
  | first :: _ =>
    let command := goToLower first
    let city := match input.get? 1 with | some t => goToLower t | none => ""
    let country := match input.get? 2 with | some t => goToLower t | none => ""
    if command = "w" then
      if input.length < 2 then ⟨favs, [], [], some (.offerErr .missingCity .done)⟩
      else
        match fetchLocationData env city country with
        | .err e => ⟨favs, [], [], some (.offerErr e .thenAwaitWeather)⟩
        | .ok g => ⟨favs, [], [⟨g.lat, g.lon⟩], some .awaitWeather⟩
    else if command = "f" then
      ⟨favs, if favs.isEmpty then [.noFavourites] else [],
        favs.map Location.coordinates, none⟩
    else if command = "list" then
      ⟨favs, (if favs.isEmpty then [.noFavourites] else []) ++ [.listed favs], [], none⟩
    else if command = "fav" then
      if input.length < 2 then ⟨favs, [], [], some (.offerErr .missingCity .done)⟩
      else
        let r := addFavourite env favs city country
        match r.result with
        | .err e => ⟨r.favourites, [], [], some (.offerErr e .done)⟩
        | .ok loc => ⟨r.favourites, [.addedFav loc.city loc.country], [], none⟩
    else if command = "remove" then
      let r := removeFavourite env favs city
      match r.2 with
      | .err e => ⟨r.1, [], [], some (.offerErr e .done)⟩
      | .ok c => ⟨r.1, [.removedFav c], [], none⟩
    else if command = "help" then
      ⟨favs, [.commandsPrinted], [], none⟩
    else
      ⟨favs, [.unknownCommand], [], none⟩

/-- How the input stream behaves once the scripted lines are exhausted:
end of file (`scanner.Scan() = false`, `scanner.Err() = nil`) or a read
error (`scanner.Err() ≠ nil`). -/
inductive ReaderEnd where
  | eof
  | errored (msg : String)
deriving DecidableEq

/-- The whole system between steps: the shared `config.Favourites`, the
reader's remaining input lines and end-of-stream behaviour, the live
goroutines, the prints so far, a counter of `fetchWeather` goroutines
ever spawned, and whether `log.Fatal` has ended the process. -/
structure Sys where
  favourites : List Location
  readerLines : List String
  readerEnd : ReaderEnd
  tasks : List GTask
  output : List OutEvent
  spawnedFetch : Nat
  terminated : Bool
deriving DecidableEq

/-- The initial system: favourites from the loaded config, the scripted
stdin, no goroutines besides reader and dispatcher, nothing printed. -/
def init (favs : List Location) (script : List String) (re : ReaderEnd) : Sys :=
  ⟨favs, script, re, [], [], 0, false⟩

/-- The tasks a finished or continuing handler leaves behind. -/
def contTasks : Option HState → List GTask
  | none => []
  | some h => [.handler h]

/-- The task a handler becomes after its `errorChan` send is received. -/
def contK : HCont → List GTask
  | .done => []
  | .thenAwaitWeather => [.handler .awaitWeather]

/-- Step labels: which rendezvous or internal action occurred. -/
inductive Label where
  /-- the reader sends `strings.Fields` of a line on `cmdChan`; `main`'s
  select receives it and spawns `go handleCommand(cmd, ...)` -/
  | read
  /-- a spawned `handleCommand` goroutine runs to its first channel
  operation or to its return -/
  | run
  /-- `main` receives a handler's error on `errorChan` and prints it -/
  | recvErr
  /-- `main` receives a fetch task's result on `weatherChan`, prints it -/
  | recvWeather
  /-- `main` receives a fetch task's error on `errorChan` and prints it -/
  | recvFetchErr
  /-- a handler blocked at `printResult(<-weatherChan)` receives a fetch
  task's result instead of `main`, and prints it -/
  | handlerRecv
  /-- `log.Fatal("Failed to scan input", ...)` in `handleInput` -/
  | fatal
deriving DecidableEq

/-- One step of the concurrent program.  Unbuffered-channel sends and
receives are single rendezvous steps; goroutine-local code between
channel operations is atomic.  `handleInput` forwards `strings.Fields`
of *every* scanned line (it has no emptiness test); after the script is
exhausted it only has a step when `scanner.Err()` is non-nil, in which
case `log.Fatal` terminates the process — at end of file `Scan` keeps
returning `false` with a nil `Err`, so no step exists. -/
inductive Step (env : Env) : Label → Sys → Sys → Prop where
  | read (s : Sys) (line : String) (rest : List String)
      (hr : s.readerLines = line :: rest) (ht : s.terminated = false) :
      Step env .read s
        { s with readerLines := rest,
                 tasks := s.tasks ++ [.handler (.start (goFields line))] }
  | run (s : Sys) (pre post : List GTask) (input : List String)
      (htk : s.tasks = pre ++ .handler (.start input) :: post)
      (ht : s.terminated = false) :
      Step env .run s
        { s with
          favourites := (handleCommandStep env s.favourites input).favourites,
          tasks := pre ++ contTasks (handleCommandStep env s.favourites input).next
            ++ post ++ (handleCommandStep env s.favourites input).spawned.map GTask.fetch,
          output := s.output ++ (handleCommandStep env s.favourites input).prints,
          spawnedFetch :=
            s.spawnedFetch + (handleCommandStep env s.favourites input).spawned.length }
  | recvErr (s : Sys) (pre post : List GTask) (e : Err) (k : HCont)
      (htk : s.tasks = pre ++ .handler (.offerErr e k) :: post)
      (ht : s.terminated = false) :
      Step env .recvErr s
        { s with tasks := pre ++ contK k ++ post,
                 output := s.output ++ [.errorPrinted .fromHandler e] }
  | recvWeather (s : Sys) (pre post : List GTask) (c : Coordinates) (r : WeatherResult)
      (htk : s.tasks = pre ++ .fetch c :: post)
      (hmsg : fetchWeatherMsg env c = .weather r)
      (ht : s.terminated = false) :
      Step env .recvWeather s
        { s with tasks := pre ++ post,
                 output := s.output ++ [.weatherPrinted r] }
  | recvFetchErr (s : Sys) (pre post : List GTask) (c : Coordinates) (e : Err)
      (htk : s.tasks = pre ++ .fetch c :: post)
      (hmsg : fetchWeatherMsg env c = .err e)
      (ht : s.terminated = false) :
      Step env .recvFetchErr s
        { s with tasks := pre ++ post,
                 output := s.output ++ [.errorPrinted .fromFetch e] }
  | handlerRecvL (s : Sys) (pre mid post : List GTask) (c : Coordinates) (r : WeatherResult)
      (htk : s.tasks = pre ++ .handler .awaitWeather :: mid ++ .fetch c :: post)
      (hmsg : fetchWeatherMsg env c = .weather r)
      (ht : s.terminated = false) :
      Step env .handlerRecv s
        { s with tasks := pre ++ mid ++ post,
                 output := s.output ++ [.weatherPrinted r] }
  | handlerRecvR (s : Sys) (pre mid post : List GTask) (c : Coordinates) (r : WeatherResult)
      (htk : s.tasks = pre ++ .fetch c :: mid ++ .handler .awaitWeather :: post)
      (hmsg : fetchWeatherMsg env c = .weather r)
      (ht : s.terminated = false) :
      Step env .handlerRecv s
        { s with tasks := pre ++ mid ++ post,
                 output := s.output ++ [.weatherPrinted r] }
  | fatal (s : Sys) (e : String)
      (hl : s.readerLines = []) (he : s.readerEnd = .errored e)
      (ht : s.terminated = false) :
      Step env .fatal s { s with terminated := true }

/-- Reachability: finitely many steps of any labels. -/
def Steps (env : Env) : Sys → Sys → Prop :=
  Relation.ReflTransGen (fun a b => ∃ l, Step env l a b)

/-- Is a live goroutine a `fetchWeather` task? -/
def GTask.isFetchTask : GTask → Bool
  | .fetch _ => true
  | .handler _ => false

/-- Is a live goroutine a `handleCommand` invocation (in any state)? -/
def GTask.isHandler : GTask → Bool
  | .fetch _ => false
  | .handler _ => true

/-- Is a print the delivery of a fetch task's outcome (its result, or
its error)? -/
def OutEvent.isFetchOutcome : OutEvent → Bool
  | .weatherPrinted _ => true
  | .errorPrinted .fromFetch _ => true
  | _ => false

/-- Number of live `fetchWeather` goroutines. -/
def liveFetch (s : Sys) : Nat := s.tasks.countP GTask.isFetchTask

/-- Number of live `handleCommand` goroutines. -/
def liveHandlers (s : Sys) : Nat := s.tasks.countP GTask.isHandler

/-- Number of fetch-task outcomes printed so far. -/
def fetchOutcomePrints (s : Sys) : Nat := s.output.countP OutEvent.isFetchOutcome

/-! ### Bookkeeping lemmas about the transition system -/

theorem contTasks_countP_fetch (o : Option HState) :
    (contTasks o).countP GTask.isFetchTask = 0 := by
  cases o <;> simp [contTasks, GTask.isFetchTask]

theorem contK_countP_fetch (k : HCont) :
    (contK k).countP GTask.isFetchTask = 0 := by
  cases k <;> simp [contK, GTask.isFetchTask]

theorem countP_map_fetch (l : List Coordinates) :
    (l.map GTask.fetch).countP GTask.isFetchTask = l.length := by
  rw [List.countP_map]
  simp [GTask.isFetchTask, Function.comp]

theorem countP_comp_fetch (l : List Coordinates) :
    l.countP (GTask.isFetchTask ∘ GTask.fetch) = l.length := by
  simp [Function.comp, GTask.isFetchTask]

/-- No print made directly by `handleCommand` before its first channel
operation is the delivery of a fetch-task outcome: results and
fetch-task errors are only printed at `weatherChan`/`errorChan`
receives. -/
theorem handleCommandStep_prints_no_fetch (env : Env) (favs : List Location)
    (input : List String) :
    ((handleCommandStep env favs input).prints).countP OutEvent.isFetchOutcome = 0 := by
  rcases input with _ | ⟨first, rest⟩
  · rfl
  · simp only [handleCommandStep]
    repeat' split
    all_goals
      simp [List.countP_cons, List.countP_append, OutEvent.isFetchOutcome]

/-- No step changes the reader's end-of-stream behaviour. -/
theorem steps_readerEnd (env : Env) (s0 s : Sys) (h : Steps env s0 s) :
    s.readerEnd = s0.readerEnd := by
  induction h with
  | refl => rfl
  | tail hsteps hstep ih =>
    obtain ⟨l, st⟩ := hstep
    cases st <;> simpa using ih

/-- The only step that sets `terminated` is the reader's `log.Fatal`,
which requires a non-nil scanner error. -/
theorem steps_terminated_errored (env : Env) (s0 s : Sys) (h : Steps env s0 s)
    (h0 : s0.terminated = false) (hT : s.terminated = true) :
    ∃ e, s0.readerEnd = .errored e := by
  induction h with
  | refl => rw [h0] at hT; cases hT
  | tail hsteps hstep ih =>
    obtain ⟨l, st⟩ := hstep
    cases st with
    | fatal s e hl he ht =>
      refine ⟨e, ?_⟩
      rw [← steps_readerEnd env _ _ hsteps]
      exact he
    | read s line rest hr ht => exact ih (by simpa using hT)
    | run s pre post input htk ht => exact ih (by simpa using hT)
    | recvErr s pre post e k htk ht => exact ih (by simpa using hT)
    | recvWeather s pre post c r htk hmsg ht => exact ih (by simpa using hT)
    | recvFetchErr s pre post c e htk hmsg ht => exact ih (by simpa using hT)
    | handlerRecvL s pre mid post c r htk hmsg ht => exact ih (by simpa using hT)
    | handlerRecvR s pre mid post c r htk hmsg ht => exact ih (by simpa using hT)

/-- At end of file the process never terminates: `scanner.Err()` is nil,
so `handleInput` never reaches its `log.Fatal`. -/
theorem steps_eof_never_terminates (env : Env) (s0 s : Sys) (h : Steps env s0 s)
    (he : s0.readerEnd = .eof) (h0 : s0.terminated = false) :
    s.terminated = false := by
  cases hT : s.terminated
  · rfl
  · obtain ⟨e, he'⟩ := steps_terminated_errored env s0 s h h0 hT
    rw [he] at he'
    cases he'

/-- Counting invariant: every `fetchWeather` goroutine ever spawned is
either still live or has had its single outcome received and printed,
exactly once. -/
theorem spawnedFetch_invariant (env : Env) (favs : List Location)
    (script : List String) (re : ReaderEnd) (s : Sys)
    (h : Steps env (init favs script re) s) :
    s.spawnedFetch = liveFetch s + fetchOutcomePrints s := by
  induction h with
  | refl => rfl
  | tail hsteps hstep ih =>
    obtain ⟨l, st⟩ := hstep
    cases st with
    | read s line rest hr ht =>
      simp only [liveFetch, fetchOutcomePrints] at ih ⊢
      simp [List.countP_append, GTask.isFetchTask]
      omega
    | run s pre post input htk ht =>
      simp only [liveFetch, fetchOutcomePrints] at ih ⊢
      rw [htk] at ih
      simp [List.countP_append, List.countP_cons, GTask.isFetchTask,
        contTasks_countP_fetch, countP_map_fetch, countP_comp_fetch,
        handleCommandStep_prints_no_fetch] at ih ⊢
      omega
    | recvErr s pre post e k htk ht =>
      simp only [liveFetch, fetchOutcomePrints] at ih ⊢
      rw [htk] at ih
      simp [List.countP_append, List.countP_cons, GTask.isFetchTask,
        contK_countP_fetch, OutEvent.isFetchOutcome] at ih ⊢
      omega
    | recvWeather s pre post c r htk hmsg ht =>
      simp only [liveFetch, fetchOutcomePrints] at ih ⊢
      rw [htk] at ih
      simp [List.countP_append, List.countP_cons, GTask.isFetchTask,
        OutEvent.isFetchOutcome] at ih ⊢
      omega
    | recvFetchErr s pre post c e htk hmsg ht =>
      simp only [liveFetch, fetchOutcomePrints] at ih ⊢
      rw [htk] at ih
      simp [List.countP_append, List.countP_cons, GTask.isFetchTask,
        OutEvent.isFetchOutcome] at ih ⊢
      omega
    | handlerRecvL s pre mid post c r htk hmsg ht =>
      simp only [liveFetch, fetchOutcomePrints] at ih ⊢
      rw [htk] at ih
      simp [List.countP_append, List.countP_cons, GTask.isFetchTask,
        OutEvent.isFetchOutcome] at ih ⊢
      omega
    | handlerRecvR s pre mid post c r htk hmsg ht =>
      simp only [liveFetch, fetchOutcomePrints] at ih ⊢
      rw [htk] at ih
      simp [List.countP_append, List.countP_cons, GTask.isFetchTask,
        OutEvent.isFetchOutcome] at ih ⊢
      omega
    | fatal s e hl he ht =>
      simpa [liveFetch, fetchOutcomePrints] using ih

/-! ### Lemmas about the pure operations -/

/-- One `fetchWeather` execution performs exactly one channel send, and
it carries that execution's outcome: every branch of the body ends in a
single send followed by `return`. -/
theorem fetchWeatherSends_eq (env : Env) (c : Coordinates) :
    fetchWeatherSends env c = [fetchWeatherMsg env c] := by
  unfold fetchWeatherSends fetchWeatherMsg
  cases henv : env.weather c with
  | fail e => rfl
  | ok resp => cases hd : resp.weatherDetails <;> simp [hd]

/-- The `removeFavourite` scan misses when no stored city matches. -/
theorem findIndex_eq_none (city : String) (favs : List Location)
    (h : ∀ l ∈ favs, goToLower l.city ≠ city) :
    findIndex city favs = none := by
  induction favs with
  | nil => rfl
  | cons a as ih =>
    have ha : (goToLower a.city == city) = false := by
      simp [h a (by simp)]
    simp [findIndex, ha, ih (fun l hl => h l (by simp [hl]))]

/-- The `removeFavourite` scan stops at the first matching entry. -/
theorem findIndex_append_first (city : String) (pre : List Location) (x : Location)
    (post : List Location) (hpre : ∀ l ∈ pre, goToLower l.city ≠ city)
    (hx : goToLower x.city = city) :
    findIndex city (pre ++ x :: post) = some pre.length := by
  induction pre with
  | nil => simp [findIndex, hx]
  | cons a as ih =>
    have ha : (goToLower a.city == city) = false := by
      simp [hpre a (by simp)]
    simp [findIndex, ha, ih (fun l hl => hpre l (by simp [hl]))]

/-- The coordinates of the live `fetchWeather` goroutines, in spawn
order. -/
def fetchTaskCoords (ts : List GTask) : List Coordinates :=
  ts.filterMap (fun t => match t with | .fetch c => some c | .handler _ => none)

theorem fetchTaskCoords_append (a b : List GTask) :
    fetchTaskCoords (a ++ b) = fetchTaskCoords a ++ fetchTaskCoords b :=
  List.filterMap_append a b _

theorem fetchTaskCoords_contTasks (o : Option HState) :
    fetchTaskCoords (contTasks o) = [] := by
  cases o <;> rfl

theorem fetchTaskCoords_map_fetch (l : List Coordinates) :
    fetchTaskCoords (l.map GTask.fetch) = l := by
  induction l with
  | nil => rfl
  | cons c cs ih => simp [fetchTaskCoords, List.filterMap_cons] at ih ⊢; exact ih

/-! ### Concrete environments, locations and scripts for the concrete
executions below -/

/-- A fixed geocoder answer: the provider resolves to name `Paris`,
country `FR`, coordinates `(1, 2)`. -/
def g0 : GeoResponse := ⟨"Paris", 1, 2, "FR"⟩

/-- The favourites entry built from `g0`. -/
def paris0 : Location := ⟨"Paris", "FR", ⟨1, 2⟩⟩

/-- Environment whose geocoder always resolves to `g0`, whose weather
provider always fails with a transport error, and whose config file is
writable. -/
def cEnv : Env :=
  { geo := fun _ _ => .ok [g0]
    weather := fun _ => .fail "network down"
    save := fun _ => .ok () }

/-- Environment like `cEnv` but whose config file is not writable. -/
def fEnv : Env :=
  { geo := fun _ _ => .ok [g0]
    weather := fun _ => .fail "network down"
    save := fun _ => .fail "disk full" }

/-! ### A concrete execution of the script `w paris`, `fav oslo` -/

def c1s0 : Sys := init [] ["w paris", "fav oslo"] .eof

def c1s1 : Sys := ⟨[], ["fav oslo"], .eof, [.handler (.start ["w", "paris"])], [], 0, false⟩

def c1s2 : Sys :=
  ⟨[], ["fav oslo"], .eof, [.handler .awaitWeather, .fetch ⟨1, 2⟩], [], 1, false⟩

def c1s3 : Sys :=
  ⟨[], [], .eof,
    [.handler .awaitWeather, .fetch ⟨1, 2⟩, .handler (.start ["fav", "oslo"])], [], 1, false⟩

/-- `main` selects and hands out the second command while the first
command's `handleCommand` goroutine is still blocked at
`printResult(<-weatherChan)`. -/
theorem c1_trace : Steps cEnv c1s0 c1s3 :=
  Relation.ReflTransGen.head ⟨.read, Step.read c1s0 "w paris" ["fav oslo"] rfl rfl⟩
    (Relation.ReflTransGen.head ⟨.run, Step.run c1s1 [] [] ["w", "paris"] rfl rfl⟩
      (Relation.ReflTransGen.single ⟨.read, Step.read c1s2 "fav oslo" [] rfl rfl⟩))

/-! ### Claim C1 -/

/-- Claim C1, counterexample.  The claim states that handling of one
event completes before the next event is selected (no two
command-handling invocations interleave).  Formalised over the model as:
in every reachable state at most one `handleCommand` goroutine is live.
This is false: `main` spawns `go handleCommand(cmd, ...)` and returns to
its `select` immediately, so after the script `w paris`, `fav oslo` a
state is reached in which the `w` handler is still blocked at
`printResult(<-weatherChan)` while the `fav` handler is already live. -/
theorem c1_counterexample :
    ¬ ∀ s : Sys, Steps cEnv c1s0 s → liveHandlers s ≤ 1 := by
  intro hcl
  exact absurd (hcl c1s3 c1_trace) (by decide)

/-- Claim C1, amended.  Mutation of the Favourites list is confined to
the `run` steps of `handleCommand` goroutines: the reader, the
dispatcher's own receive-and-print steps and every `fetchWeather` task
delivery leave `config.Favourites` unchanged.  However the handlers run
as goroutines concurrent with the dispatcher loop (see the
counterexample), so the mutation is *not* serialized under the loop
iteration itself. -/
theorem c1_mutation_confined (env : Env) (l : Label) (s s' : Sys)
    (h : Step env l s s') (hl : l ≠ .run) : s'.favourites = s.favourites := by
  cases h <;> first | rfl | exact absurd rfl hl

theorem c1_mutation_confined_witness : c1s1.favourites = c1s0.favourites :=
  c1_mutation_confined cEnv .read c1s0 c1s1
    (Step.read c1s0 "w paris" ["fav oslo"] rfl rfl) (by decide)

/-! ### Claim C2 -/

def c2w0 : Sys := init [paris0] ["f"] .eof

def c2w1 : Sys := ⟨[paris0], [], .eof, [.handler (.start ["f"])], [], 0, false⟩

def c2w2 : Sys := ⟨[paris0], [], .eof, [.fetch ⟨1, 2⟩], [], 1, false⟩

def c2w3 : Sys :=
  ⟨[paris0], [], .eof, [], [.errorPrinted .fromFetch (.fetchFailed "network down")], 1, false⟩

theorem c2_trace : Steps cEnv c2w0 c2w3 :=
  Relation.ReflTransGen.head ⟨.read, Step.read c2w0 "f" [] rfl rfl⟩
    (Relation.ReflTransGen.head ⟨.run, Step.run c2w1 [] [] ["f"] rfl rfl⟩
      (Relation.ReflTransGen.single
        ⟨.recvFetchErr,
          Step.recvFetchErr c2w2 [] [] ⟨1, 2⟩ (.fetchFailed "network down") rfl rfl rfl⟩))

/-- Claim C2.  Each `fetchWeather` execution performs exactly one
channel send, carrying its single outcome (first conjunct); and in every
reachable state the number of spawned fetch tasks equals the number of
live fetch tasks plus the number of printed fetch outcomes, each
delivered outcome being printed at its rendezvous (second conjunct) —
so whenever no fetch task is left running, printed outcomes and issued
fetch tasks agree exactly (third conjunct). -/
theorem c2_exactly_one_outcome (env : Env) (c : Coordinates) (favs : List Location)
    (script : List String) (re : ReaderEnd) (s : Sys)
    (h : Steps env (init favs script re) s) :
    fetchWeatherSends env c = [fetchWeatherMsg env c] ∧
    s.spawnedFetch = liveFetch s + fetchOutcomePrints s ∧
    (liveFetch s = 0 → s.spawnedFetch = fetchOutcomePrints s) := by
  have hinv := spawnedFetch_invariant env favs script re s h
  exact ⟨fetchWeatherSends_eq env c, hinv, fun h0 => by omega⟩

theorem c2_exactly_one_outcome_witness :
    fetchWeatherSends cEnv ⟨1, 2⟩ = [fetchWeatherMsg cEnv ⟨1, 2⟩] ∧
    c2w3.spawnedFetch = liveFetch c2w3 + fetchOutcomePrints c2w3 ∧
    (liveFetch c2w3 = 0 → c2w3.spawnedFetch = fetchOutcomePrints c2w3) :=
  c2_exactly_one_outcome cEnv ⟨1, 2⟩ [paris0] ["f"] .eof c2w3 c2_trace

/-! ### Claim C3 -/

def c3d0 : Sys := init [] ["w x"] .eof

def c3d1 : Sys := ⟨[], [], .eof, [.handler (.start ["w", "x"])], [], 0, false⟩

def c3d2 : Sys := ⟨[], [], .eof, [.handler .awaitWeather, .fetch ⟨1, 2⟩], [], 1, false⟩

def c3d3 : Sys :=
  ⟨[], [], .eof, [.handler .awaitWeather],
    [.errorPrinted .fromFetch (.fetchFailed "network down")], 1, false⟩

theorem c3_trace : Steps cEnv c3d0 c3d3 :=
  Relation.ReflTransGen.head ⟨.read, Step.read c3d0 "w x" [] rfl rfl⟩
    (Relation.ReflTransGen.head ⟨.run, Step.run c3d1 [] [] ["w", "x"] rfl rfl⟩
      (Relation.ReflTransGen.single
        ⟨.recvFetchErr,
          Step.recvFetchErr c3d2 [GTask.handler .awaitWeather] [] ⟨1, 2⟩
            (.fetchFailed "network down") rfl rfl rfl⟩))

/-- Claim C3, counterexample.  The claim states that when a `w`
command's fetch task fails, the error is printed and nothing else is
consumed or left pending on the outcome channels for that command.
Formalised: in the one-command script `w x`, once the task's error has
been printed no handler goroutine of that command is still live.  This
is false: `handleCommand`'s `w` case executes
`printResult(<-weatherChan)` unconditionally, so after the error print
the handler remains blocked receiving on `weatherChan` (with no fetch
task left to serve it, and positioned to consume a later command's
result). -/
theorem c3_counterexample :
    ¬ ∀ s : Sys, Steps cEnv c3d0 s →
        OutEvent.errorPrinted .fromFetch (.fetchFailed "network down") ∈ s.output →
        liveHandlers s = 0 := by
  intro hcl
  exact absurd (hcl c3d3 c3_trace (by decide)) (by decide)

/-- Claim C3, amended.  For a `w <city>` command: on successful
resolution the handler spawns exactly one fetch task (capturing the
resolved coordinates) and then blocks at `printResult(<-weatherChan)`,
where the task's success outcome is printed when it arrives; on
resolution failure no task is spawned, the handler offers the error on
`errorChan` and *still* falls through to block on `weatherChan`, so a
failed `w` command leaves a pending receive on the outcome channel
rather than cleaning up. -/
theorem c3_w_handler_shape (env : Env) (favs : List Location) (cityTok : String)
    (g : GeoResponse) (e : Err) :
    (fetchLocationData env (goToLower cityTok) "" = .ok g →
      handleCommandStep env favs ["w", cityTok] =
        ⟨favs, [], [⟨g.lat, g.lon⟩], some .awaitWeather⟩) ∧
    (fetchLocationData env (goToLower cityTok) "" = .err e →
      handleCommandStep env favs ["w", cityTok] =
        ⟨favs, [], [], some (.offerErr e .thenAwaitWeather)⟩) := by
  constructor <;> intro hres <;> simp +decide [handleCommandStep, hres]

theorem c3_w_handler_shape_witness :
    handleCommandStep cEnv [] ["w", "x"] = ⟨[], [], [⟨1, 2⟩], some .awaitWeather⟩ :=
  (c3_w_handler_shape cEnv [] "x" g0 .locationNotFound).1 rfl

/-! ### Claim C4 -/

def c4e0 : Sys := init [] [""] .eof

def c4e1 : Sys := ⟨[], [], .eof, [.handler (.start [])], [], 0, false⟩

/-- Claim C4, counterexample.  The claim states that empty lines are
discarded by the Input Reader and never forwarded onto the command
queue.  This is false: `handleInput` sends `strings.Fields` of every
scanned line on `cmdChan` with no emptiness test, so with the script
consisting of one empty line, a state is reached in which the
dispatcher has received the empty token sequence from the command queue
and spawned a handler for it. -/
theorem c4_counterexample :
    ¬ ∀ s : Sys, Steps cEnv c4e0 s → GTask.handler (.start []) ∉ s.tasks := by
  intro hcl
  exact absurd (by decide)
    (hcl c4e1 (Relation.ReflTransGen.single ⟨.read, Step.read c4e0 "" [] rfl rfl⟩))

/-- Claim C4, amended.  Each line is split on white space into a token
sequence and forwarded by the reader — including the empty token
sequence of an empty line; it is the dispatcher's `handleCommand` (its
`len(input) == 0` test), not the reader, that discards empty commands,
with no print, no state change and no spawned task. -/
theorem c4_reader_forwards_every_line (env : Env) (s : Sys) (line : String)
    (rest : List String) (h1 : s.readerLines = line :: rest) (h2 : s.terminated = false) :
    Step env .read s
      { s with readerLines := rest,
               tasks := s.tasks ++ [.handler (.start (goFields line))] } ∧
    handleCommandStep env s.favourites [] = ⟨s.favourites, [], [], none⟩ :=
  ⟨Step.read s line rest h1 h2, rfl⟩

theorem c4_reader_forwards_every_line_witness :
    Step cEnv .read c4e0 c4e1 ∧
    handleCommandStep cEnv [] [] = ⟨[], [], [], none⟩ :=
  c4_reader_forwards_every_line cEnv c4e0 "" [] rfl rfl

/-! ### Claim C5 -/

/-- Claim C5.  If some stored favourite's city matches the typed city
case-insensitively, `addFavourite` fails with the duplicate error and
leaves the list unchanged (first conjunct).  Adding the same city twice
to an empty list — when the geocoder's resolved name matches the typed
city case-insensitively, as `fav paris fr` resolving to `Paris` does,
which is exactly the situation in which the claim's premise of *the
same city name* holds for the stored entry — leaves exactly one entry
for that city and makes the second call report the duplicate (remaining
conjuncts). -/
theorem c5_duplicate_favourite (env : Env) (favs : List Location) (city country : String)
    (g : GeoResponse) (gs : List GeoResponse) (l : Location)
    (hl : l ∈ favs) (hlc : goToLower l.city = goToLower city)
    (hgeo : env.geo city country = .ok (g :: gs))
    (hname : goToLower g.name = goToLower city)
    (hsave : env.save [⟨g.name, g.country, ⟨g.lat, g.lon⟩⟩] = .ok ()) :
    addFavourite env favs city country = ⟨favs, .err (.duplicate city)⟩ ∧
    (addFavourite env [] city country).favourites =
      [⟨g.name, g.country, ⟨g.lat, g.lon⟩⟩] ∧
    addFavourite env (addFavourite env [] city country).favourites city country =
      ⟨(addFavourite env [] city country).favourites, .err (.duplicate city)⟩ ∧
    (addFavourite env [] city country).favourites.countP
      (fun l2 => goToLower l2.city == goToLower city) = 1 := by
  have hfirst : addFavourite env [] city country =
      ⟨[⟨g.name, g.country, ⟨g.lat, g.lon⟩⟩], .ok ⟨g.name, g.country, ⟨g.lat, g.lon⟩⟩⟩ := by
    simp [addFavourite, fetchLocationData, hgeo, hsave]
  have hany : favs.any (fun l2 => goToLower l2.city == goToLower city) = true :=
    List.any_eq_true.mpr ⟨l, hl, by simp [hlc]⟩
  refine ⟨by simp [addFavourite, hany], ?_, ?_, ?_⟩
  · rw [hfirst]
  · rw [hfirst]
    simp [addFavourite, hname]
  · rw [hfirst]
    simp [List.countP_cons, hname]

theorem c5_duplicate_favourite_witness :
    addFavourite cEnv [paris0] "paris" "fr" = ⟨[paris0], .err (.duplicate "paris")⟩ ∧
    (addFavourite cEnv [] "paris" "fr").favourites = [⟨"Paris", "FR", ⟨1, 2⟩⟩] ∧
    addFavourite cEnv (addFavourite cEnv [] "paris" "fr").favourites "paris" "fr" =
      ⟨(addFavourite cEnv [] "paris" "fr").favourites, .err (.duplicate "paris")⟩ ∧
    (addFavourite cEnv [] "paris" "fr").favourites.countP
      (fun l2 => goToLower l2.city == goToLower "paris") = 1 :=
  c5_duplicate_favourite cEnv [paris0] "paris" "fr" g0 [] paris0 (by decide) (by decide)
    rfl (by decide) rfl

/-! ### Claim C6 -/

/-- Claim C6.  `removeFavourite` on a city matching no stored entry
returns the `does not exist` error with the favourites list unchanged
(first conjunct); on a present city it removes exactly the first
matching entry, saves the result and prints the confirmation (second
conjunct, under a succeeding save). -/
theorem c6_remove_favourite (env : Env) (favs pre post : List Location) (x : Location)
    (city : String)
    (habs : ∀ l ∈ favs, goToLower l.city ≠ city)
    (hpre : ∀ l ∈ pre, goToLower l.city ≠ city)
    (hx : goToLower x.city = city)
    (hsave : env.save (pre ++ post) = .ok ()) :
    removeFavourite env favs city = ⟨favs, .err (.notFound city)⟩ ∧
    removeFavourite env (pre ++ x :: post) city = ⟨pre ++ post, .ok city⟩ := by
  constructor
  · simp [removeFavourite, findIndex_eq_none city favs habs]
  · have ht : (pre ++ x :: post).take pre.length = pre := List.take_left pre (x :: post)
    have hd : (pre ++ x :: post).drop (pre.length + 1) = post := by
      rw [show pre ++ x :: post = (pre ++ [x]) ++ post by simp,
        show pre.length + 1 = (pre ++ [x]).length by simp]
      exact List.drop_left _ _
    simp [removeFavourite, findIndex_append_first city pre x post hpre hx, ht, hd, hsave]

theorem c6_remove_favourite_witness :
    removeFavourite cEnv [] "paris" = ⟨[], .err (.notFound "paris")⟩ ∧
    removeFavourite cEnv [paris0] "paris" = ⟨[], .ok "paris"⟩ :=
  c6_remove_favourite cEnv [] [] [] paris0 "paris" (by simp) (by simp) (by decide) rfl

/-! ### Claim C7 -/

/-- Claim C7, counterexample.  The claim states that on unrecoverable
input-stream failure — *for example, closed stdin* — the reader signals
process termination immediately.  This is false for the claim's own
example: when stdin is closed, `scanner.Scan()` returns `false` with a
nil `scanner.Err()`, so `handleInput` never reaches its `log.Fatal` and
merely loops; in the model, no state with `terminated = true` is
reachable from an exhausted end-of-file input stream. -/
theorem c7_counterexample :
    ¬ ∃ s : Sys, Steps cEnv (init [] [] .eof) s ∧ s.terminated = true := by
  rintro ⟨s, hst, hT⟩
  have h := steps_eof_never_terminates cEnv _ s hst rfl rfl
  simp [h] at hT

/-- Claim C7, amended.  Only an input-stream *read error* (a non-nil
`scanner.Err()`) is fatal: when the stream ends with a read error the
reader's `log.Fatal` step terminates the process (first conjunct), and
conversely every reachable terminated state required the input stream
to end in a read error — every other error merely prints and leaves the
loop running (second conjunct).  Closed stdin (EOF) terminates nothing
(see the counterexample). -/
theorem c7_fatal_only_on_read_error (env : Env) (s0 s : Sys) (emsg : String) :
    (s0.readerLines = [] → s0.readerEnd = .errored emsg → s0.terminated = false →
      Step env .fatal s0 { s0 with terminated := true }) ∧
    (Steps env s0 s → s0.terminated = false → s.terminated = true →
      ∃ e, s0.readerEnd = .errored e) :=
  ⟨fun h1 h2 h3 => Step.fatal s0 emsg h1 h2 h3,
    fun hst h0 hT => steps_terminated_errored env s0 s hst h0 hT⟩

def c7err : Sys := init [] [] (.errored "read failure")

theorem c7_fatal_only_on_read_error_witness :
    Step cEnv .fatal c7err { c7err with terminated := true } :=
  (c7_fatal_only_on_read_error cEnv c7err c7err "read failure").1 rfl rfl rfl

/-! ### Claim C8 -/

/-- Claim C8.  When saving the config fails during `fav` or `remove`:
the in-memory favourites list keeps its mutation (the `favourites`
field of the handler effect is the mutated list), the success
confirmation is not printed (`prints = []`), and the handler is left
offering the save-failure error on `errorChan`, whose receipt by the
dispatcher prints it to the user. -/
theorem c8_persistence_failure (env : Env) (favs : List Location) (cityTok : String)
    (g : GeoResponse) (gs : List GeoResponse) (emsg : String)
    (pre post : List Location) (x : Location)
    (hlow : goToLower cityTok = cityTok)
    (hnodup : favs.any (fun l => goToLower l.city == cityTok) = false)
    (hgeo : env.geo cityTok "" = .ok (g :: gs))
    (hsaveA : env.save (favs ++ [⟨g.name, g.country, ⟨g.lat, g.lon⟩⟩]) = .fail emsg)
    (hpre : ∀ l ∈ pre, goToLower l.city ≠ cityTok)
    (hx : goToLower x.city = cityTok)
    (hsaveR : env.save (pre ++ post) = .fail emsg) :
    handleCommandStep env favs ["fav", cityTok] =
      ⟨favs ++ [⟨g.name, g.country, ⟨g.lat, g.lon⟩⟩], [], [],
        some (.offerErr (.saveFailed emsg) .done)⟩ ∧
    handleCommandStep env (pre ++ x :: post) ["remove", cityTok] =
      ⟨pre ++ post, [], [], some (.offerErr (.saveFailed emsg) .done)⟩ := by
  have haddr : addFavourite env favs cityTok "" =
      ⟨favs ++ [⟨g.name, g.country, ⟨g.lat, g.lon⟩⟩], .err (.saveFailed emsg)⟩ := by
    simp [addFavourite, hlow, hnodup, fetchLocationData, hgeo, hsaveA]
  have ht : (pre ++ x :: post).take pre.length = pre := List.take_left pre (x :: post)
  have hd : (pre ++ x :: post).drop (pre.length + 1) = post := by
    rw [show pre ++ x :: post = (pre ++ [x]) ++ post by simp,
      show pre.length + 1 = (pre ++ [x]).length by simp]
    exact List.drop_left _ _
  have hremr : removeFavourite env (pre ++ x :: post) cityTok =
      ⟨pre ++ post, .err (.saveFailed emsg)⟩ := by
    simp [removeFavourite, findIndex_append_first cityTok pre x post hpre hx, ht, hd, hsaveR]
  constructor
  · simp +decide [handleCommandStep, hlow, haddr]
  · simp +decide [handleCommandStep, hlow, hremr]

theorem c8_persistence_failure_witness :
    handleCommandStep fEnv [] ["fav", "paris"] =
      ⟨[⟨"Paris", "FR", ⟨1, 2⟩⟩], [], [],
        some (.offerErr (.saveFailed "disk full") .done)⟩ ∧
    handleCommandStep fEnv [paris0] ["remove", "paris"] =
      ⟨[], [], [], some (.offerErr (.saveFailed "disk full") .done)⟩ :=
  c8_persistence_failure fEnv [] "paris" g0 [] "disk full" [] [] paris0
    (by decide) rfl rfl rfl (by simp) (by decide) rfl

/-! ### Claim C9 -/

/-- Claim C9.  An `f` command spawns one `fetchWeather` task per entry
of the favourites list the handler reads, each carrying that entry's
coordinates captured by value at the `go` statement (first conjunct),
mutating nothing and completing without blocking (second and third
conjuncts); and no handler step — in particular no `fav`/`remove`
mutation — alters an already-spawned fetch task: a `run` step only ever
appends to the live fetch-task list, leaving existing tasks and their
captured coordinates in place (fourth conjunct). -/
theorem c9_fanout_snapshot (env : Env) (favs : List Location) (rest : List String)
    (s s' : Sys) (h : Step env .run s s') :
    (handleCommandStep env favs ("f" :: rest)).spawned = favs.map Location.coordinates ∧
    (handleCommandStep env favs ("f" :: rest)).favourites = favs ∧
    (handleCommandStep env favs ("f" :: rest)).next = none ∧
    (fetchTaskCoords s'.tasks).take (fetchTaskCoords s.tasks).length =
      fetchTaskCoords s.tasks := by
  refine ⟨by simp +decide [handleCommandStep], by simp +decide [handleCommandStep],
    by simp +decide [handleCommandStep], ?_⟩
  cases h with
  | run s pre post input htk ht =>
    have e1 : fetchTaskCoords (pre ++ GTask.handler (HState.start input) :: post) =
        fetchTaskCoords pre ++ fetchTaskCoords post := by
      rw [fetchTaskCoords_append]
      simp [fetchTaskCoords, List.filterMap_cons]
    have e2 : fetchTaskCoords (pre ++ contTasks (handleCommandStep env s.favourites input).next
          ++ post ++ ((handleCommandStep env s.favourites input).spawned.map GTask.fetch)) =
        (fetchTaskCoords pre ++ fetchTaskCoords post)
          ++ (handleCommandStep env s.favourites input).spawned := by
      rw [fetchTaskCoords_append, fetchTaskCoords_append, fetchTaskCoords_append,
        fetchTaskCoords_contTasks, fetchTaskCoords_map_fetch]
      simp
    dsimp only
    rw [htk, e2, e1]
    exact List.take_left _ _

theorem c9_fanout_snapshot_witness :
    (handleCommandStep cEnv [paris0] ["f"]).spawned = [paris0].map Location.coordinates ∧
    (handleCommandStep cEnv [paris0] ["f"]).favourites = [paris0] ∧
    (handleCommandStep cEnv [paris0] ["f"]).next = none ∧
    (fetchTaskCoords c2w2.tasks).take (fetchTaskCoords c2w1.tasks).length =
      fetchTaskCoords c2w1.tasks :=
  c9_fanout_snapshot cEnv [paris0] [] c2w1 c2w2 (Step.run c2w1 [] [] ["f"] rfl rfl)

/-! ### Claim C10 -/

/-- Claim C10.  A successful `fav` appends to the favourites the entry
built from the geocoder's *resolved* name and country, and the
confirmation echoes those resolved values, not the typed tokens (first
and second conjuncts); the duplicate check, by contrast, compares the
stored city names against the *user-typed* city, case-insensitively
(third conjunct). -/
theorem c10_resolved_name_stored (env : Env) (favs favs2 : List Location)
    (city countryTok : String) (g : GeoResponse) (gs : List GeoResponse) (l : Location)
    (hlow : goToLower city = city)
    (hlowC : goToLower countryTok = countryTok)
    (hnodup : favs.any (fun l2 => goToLower l2.city == city) = false)
    (hgeo : env.geo city countryTok = .ok (g :: gs))
    (hsave : env.save (favs ++ [⟨g.name, g.country, ⟨g.lat, g.lon⟩⟩]) = .ok ())
    (hl : l ∈ favs2) (hlc : goToLower l.city = goToLower city) :
    addFavourite env favs city countryTok =
      ⟨favs ++ [⟨g.name, g.country, ⟨g.lat, g.lon⟩⟩],
        .ok ⟨g.name, g.country, ⟨g.lat, g.lon⟩⟩⟩ ∧
    handleCommandStep env favs ["fav", city, countryTok] =
      ⟨favs ++ [⟨g.name, g.country, ⟨g.lat, g.lon⟩⟩],
        [.addedFav g.name g.country], [], none⟩ ∧
    addFavourite env favs2 city countryTok = ⟨favs2, .err (.duplicate city)⟩ := by
  have haddr : addFavourite env favs city countryTok =
      ⟨favs ++ [⟨g.name, g.country, ⟨g.lat, g.lon⟩⟩],
        .ok ⟨g.name, g.country, ⟨g.lat, g.lon⟩⟩⟩ := by
    simp [addFavourite, hlow, hnodup, fetchLocationData, hgeo, hsave]
  have hany : favs2.any (fun l2 => goToLower l2.city == goToLower city) = true :=
    List.any_eq_true.mpr ⟨l, hl, by simp [hlc]⟩
  refine ⟨haddr, ?_, by simp [addFavourite, hany]⟩
  simp +decide [handleCommandStep, hlow, hlowC, haddr]

theorem c10_resolved_name_stored_witness :
    addFavourite cEnv [] "paris" "fr" =
      ⟨[⟨"Paris", "FR", ⟨1, 2⟩⟩], .ok ⟨"Paris", "FR", ⟨1, 2⟩⟩⟩ ∧
    handleCommandStep cEnv [] ["fav", "paris", "fr"] =
      ⟨[⟨"Paris", "FR", ⟨1, 2⟩⟩], [.addedFav "Paris" "FR"], [], none⟩ ∧
    addFavourite cEnv [paris0] "paris" "fr" = ⟨[paris0], .err (.duplicate "paris")⟩ :=
  c10_resolved_name_stored cEnv [] [paris0] "paris" "fr" g0 [] paris0
    (by decide) (by decide) rfl rfl rfl (by decide) (by decide)

end Weather
